import Mathlib

/-!
Shallow embedding of the XTS index-master download pipeline
(`scripts/download_index_master.py`).

The script is a linear pipeline: resolve credentials (config file →
environment → interactive prompt), log in to the XTS market-data API,
fetch the index list for one exchange segment, and persist the result
as a CSV file and a raw-JSON file.

Modelling conventions:
* Python strings are Lean `String`s; character-level work happens on
  `String.data : List Char`.
* A raw index record (one JSON object of the server's `result` array) is a
  list of key/value pairs with values kept as their rendered strings — the
  script only ever feeds field values through `str()`-style interpolation.
* Network I/O is modelled by passing the outcome of each HTTP call
  (`HttpOutcome`) as an explicit argument; each operation performs exactly
  one attempt, mirroring the single `urlopen` call with no retry loop.
* File writes are modelled by functions returning the complete file
  content; `open(path, "w")` truncates, so the content fully determines
  the resulting file.
* The wall-clock timestamp `datetime.now().strftime(...)` is an explicit
  parameter `ts` threaded to the one place the script computes it.
-/

namespace Autotrade

/-- Python truthiness of an optional string: `None` and `""` are falsy. -/
def pyTruthy : Option String → Bool
  | none => false
  | some s => s ≠ ""

/-- Characters stripped by Python's `str.strip()` with no argument. -/
def pyWhitespace : List Char := [' ', '\t', '\n', '\x0d', '\x0b', '\x0c']

/-- Python `str.strip()`: drop leading and trailing whitespace. -/
def pyStrip (s : String) : String :=
  (((s.data.dropWhile (pyWhitespace.contains ·)).reverse.dropWhile
      (pyWhitespace.contains ·)).reverse).asString

/-- Python `str.strip("\"'")`: drop leading and trailing quote characters. -/
def pyStripQuotes (s : String) : String :=
  (((s.data.dropWhile (['"', '\''].contains ·)).reverse.dropWhile
      (['"', '\''].contains ·)).reverse).asString

/-- One raw index record: a JSON object, fields in server order, values
rendered as strings (the script only interpolates them into text). -/
abbrev RawIndexRecord := List (String × String)

/-- Python `item.get(key, default)` on a record. -/
def pyGet (item : RawIndexRecord) (key default : String) : String :=
  match item.find? (fun kv => kv.1 = key) with
  | some kv => kv.2
  | none => default

/-- Split a character list at the last occurrence of `'_'`:
`some (before, after)` when an underscore is present, `none` otherwise.
This is `full_name.rsplit("_", 1)` restricted to one split. -/
def splitLastUnderscore : List Char → Option (List Char × List Char)
  | [] => none
  | c :: rest =>
    match splitLastUnderscore rest with
    | some (p, q) => some (c :: p, q)
    | none => if c = '_' then some ([], rest) else none

/-- The per-record parsing rule of `save_as_csv`: `full_name = item.get("name", "")`;
if it contains `_`, `index_name, token = full_name.rsplit("_", 1)`,
else `index_name = full_name` and `token = item.get("exchangeInstrumentID", "")`.
The source guards the split with `if "_" in full_name`; `splitLastUnderscore`
returns `some` exactly in that case (`splitLastUnderscore_eq_none_iff`). -/
def normalizeName (item : RawIndexRecord) : String × String :=
  let full_name := pyGet item "name" ""
  match splitLastUnderscore full_name.data with
  | some (p, q) => (p.asString, q.asString)
  | none => (full_name, pyGet item "exchangeInstrumentID" "")

/-- One CSV data row: `f"{idx},{index_name},{token},{timestamp}\n"`. -/
def csvRow (idx : Nat) (item : RawIndexRecord) (ts : String) : String :=
  toString idx ++ "," ++ (normalizeName item).1 ++ "," ++ (normalizeName item).2
    ++ "," ++ ts ++ "\n"

/-- The data rows of the CSV, numbering records from `idx` upward
(`enumerate(indices, start=1)` starts the loop at `idx = 1`). -/
def csvRows (idx : Nat) (indices : List RawIndexRecord) (ts : String) : String :=
  match indices with
  | [] => ""
  | item :: rest => csvRow idx item ts ++ csvRows (idx + 1) rest ts

/-- The CSV header literal written first by `save_as_csv`. -/
def csvHeader : String := "id,index_name,token,created_at\n"

/-- Full content written by `XTSIndexDownloader.save_as_csv`: the header
line, then one row per record; the timestamp is computed once before the
loop and shared by every row. -/
def save_as_csv_content (indices : List RawIndexRecord) (ts : String) : String :=
  csvHeader ++ csvRows 1 indices ts

/-- Escaping applied by `json.dump` to one character of a string value
(the records hold plain ASCII exchange names, so only the basic escapes
are modelled). -/
def jsonEscapeChar (c : Char) : String :=
  if c = '"' then "\\\""
  else if c = '\\' then "\\\\"
  else if c = '\n' then "\\n"
  else if c = '\x0d' then "\\r"
  else if c = '\t' then "\\t"
  else String.singleton c

/-- A JSON string literal. -/
def jsonQuote (s : String) : String :=
  "\"" ++ String.join (s.data.map jsonEscapeChar) ++ "\""

/-- One record rendered by `json.dump(..., indent=2)` at list depth:
members indented four spaces, closing brace two. -/
def jsonObj (item : RawIndexRecord) : String :=
  match item with
  | [] => "\x7b\x7d"
  | _ => "\x7b\n"
      ++ String.intercalate ",\n"
          (item.map (fun kv => "    " ++ jsonQuote kv.1 ++ ": " ++ jsonQuote kv.2))
      ++ "\n  \x7d"

/-- Full content written by `XTSIndexDownloader.save_raw_json`:
`json.dump(indices, f, indent=2)`. An empty list prints as `[]`. -/
def save_raw_json_content (indices : List RawIndexRecord) : String :=
  match indices with
  | [] => "[]"
  | _ => "[\n"
      ++ String.intercalate ",\n" (indices.map (fun it => "  " ++ jsonObj it))
      ++ "\n]"

/-- The hard-coded default host of `XTSIndexDownloader.__init__`. -/
def defaultHost : String := "https://mtrade.arhamshare.com"

/-- `base_url or "https://mtrade.arhamshare.com"`: `None` and `""` are falsy. -/
def mdOrDefault : Option String → String
  | none => defaultHost
  | some s => if s = "" then defaultHost else s

/-- Drop a trailing `"/apimarketdata"` when present
(`self.base_url[:-len("/apimarketdata")]`). -/
def stripApiSuffix (s : String) : String :=
  if ("/apimarketdata".data).isSuffixOf s.data then
    (s.data.take (s.data.length - "/apimarketdata".length)).asString
  else s

/-- Python `str.rstrip('/')`: drop all trailing slashes. -/
def rstripSlashes (s : String) : String :=
  ((s.data.reverse.dropWhile (· = '/')).reverse).asString

/-- Base-URL normalization of `XTSIndexDownloader.__init__`: apply the
default, strip a trailing `/apimarketdata`, strip trailing slashes, then
append `/marketdata` unless the result already ends with it. -/
def normalizeBaseUrl (burl : Option String) : String :=
  let s := rstripSlashes (stripApiSuffix (mdOrDefault burl))
  if ("/marketdata".data).isSuffixOf s.data then s else s ++ "/marketdata"

/-- The downloader's state: constructor arguments plus the bearer token,
`None` until a successful login stores `result["token"]`. -/
structure XTSIndexDownloader where
  api_key : String
  secret_key : String
  source : String
  base_url : String
  token : Option String
  deriving Repr, DecidableEq

/-- `XTSIndexDownloader.__init__`: store credentials, normalize the base
URL, leave the token unset. -/
def XTSIndexDownloader.init (api secret : String) (burl : Option String)
    (src : String) : XTSIndexDownloader :=
  { api_key := api, secret_key := secret, source := src,
    base_url := normalizeBaseUrl burl, token := none }

/-- Outcome of one `urlopen` call, as seen by the `try`/`except` blocks:
`httpError` is a raised `HTTPError` (non-2xx status), `urlError` a raised
`URLError` (connection failures and wrapped timeouts), `timeout` a bare
socket timeout, `otherError` any other exception; `ok none` is a 2xx
response whose body fails `json.loads` (or is not a JSON object), and
`ok (some b)` a 2xx response parsed as the object `b`. -/
inductive HttpOutcome (β : Type) where
  | httpError (code : Nat) (body : String)
  | urlError (reason : String)
  | timeout
  | otherError (msg : String)
  | ok (body : Option β)
  deriving Repr

/-- Parsed body of the login response: `.get("type")` and the optional
`result` object with its string fields. -/
structure LoginBody where
  type : Option String
  result : Option (List (String × String))
  deriving Repr, DecidableEq

/-- `response_data["result"]["token"]`: `none` when `result` is absent or
has no `token` field — in Python that lookup raises, and the generic
`except Exception` handler turns it into a failed login. -/
def tokenOf (b : LoginBody) : Option String :=
  b.result.bind (fun r => (r.find? (fun kv => kv.1 = "token")).map Prod.snd)

/-- `XTSIndexDownloader.login`: a single POST to `<base_url>/auth/login`.
Returns the updated state and `True`/`False` exactly as the source does;
the token is stored only on a parsed body with `type == "success"` whose
`result.token` exists. Every raised exception path returns `False`. -/
def XTSIndexDownloader.login (st : XTSIndexDownloader)
    (resp : HttpOutcome LoginBody) : XTSIndexDownloader × Bool :=
  match resp with
  | .ok (some body) =>
    if body.type = some "success" then
      match tokenOf body with
      | some tok => ({ st with token := some tok }, true)
      | none => (st, false)
    else (st, false)
  | _ => (st, false)

/-- The login request URL, built from the stored base URL. -/
def loginUrl (st : XTSIndexDownloader) : String :=
  st.base_url ++ "/auth/login"

/-- Parsed body of the index-list response: `.get("type")` and the
optional `result` array of raw records. -/
structure FetchBody where
  type : Option String
  result : Option (List RawIndexRecord)
  deriving Repr, DecidableEq

/-- Requests the pipeline sends over the network, in order. -/
inductive Event where
  | loginRequest (url : String)
  | fetchRequest (url : String) (authToken : String)
  deriving Repr, DecidableEq

/-- The index-list request URL for a segment, built from the stored base
URL (`f"{self.base_url}/instruments/indexlist?exchangeSegment={...}"`). -/
def fetchUrl (st : XTSIndexDownloader) (segment : Nat) : String :=
  st.base_url ++ "/instruments/indexlist?exchangeSegment=" ++ toString segment

/-- `XTSIndexDownloader.get_index_list`: with a falsy token (`if not
self.token` — unset or the empty string) it returns `None` without
issuing a request; otherwise it issues one authenticated GET and returns
`response_data.get("result", [])` on a parsed body with
`type == "success"`, `None` on every failure path. The first component
lists the request events actually sent. -/
def XTSIndexDownloader.get_index_list (st : XTSIndexDownloader)
    (segment : Nat) (resp : HttpOutcome FetchBody) :
    List Event × Option (List RawIndexRecord) :=
  match st.token with
  | none => ([], none)
  | some tok =>
    if tok = "" then ([], none)
    else
      ([Event.fetchRequest (fetchUrl st segment) tok],
        match resp with
        | .ok (some body) =>
          if body.type = some "success" then some (body.result.getD []) else none
        | _ => none)

/-- Credential variables of `main` while resolving: `api_key`, `secret_key`
and `base_url` start as `None`, `source` as `"TWSAPI"`. -/
structure Credentials where
  api_key : Option String
  secret_key : Option String
  base_url : Option String
  source : String
  deriving Repr, DecidableEq

/-- Initial credential state of `main`. -/
def initCreds : Credentials :=
  { api_key := none, secret_key := none, base_url := none, source := "TWSAPI" }

/-- Split a character list at the first occurrence of `sep`
(`line.split('=', 1)` keeps only the first split). -/
def splitFirst (sep : Char) : List Char → Option (List Char × List Char)
  | [] => none
  | c :: rest =>
    if c = sep then some ([], rest)
    else (splitFirst sep rest).map (fun p => (c :: p.1, p.2))

/-- Assignment of one parsed `key = value` pair from the config file:
`marketdata_appkey`, `marketdata_secretkey`, `source`, `mdurl` always
assign; `url` assigns the base URL only when none is set yet. -/
def applyConfigKV (st : Credentials) (key value : String) : Credentials :=
  if key = "marketdata_appkey" then { st with api_key := some value }
  else if key = "marketdata_secretkey" then { st with secret_key := some value }
  else if key = "source" then { st with source := value }
  else if key = "mdurl" then { st with base_url := some value }
  else if key = "url" then
    if pyTruthy st.base_url then st else { st with base_url := some value }
  else st

/-- Processing of one config line: strip it, skip it unless it contains
`=` and does not start with `;` or `#`, then split on the first `=` and
assign the stripped key and the stripped, quote-stripped value. -/
def parseConfigLine (st : Credentials) (line : String) : Credentials :=
  let l := pyStrip line
  match l.data with
  | ';' :: _ => st
  | '#' :: _ => st
  | _ =>
    match splitFirst '=' l.data with
    | some (k, v) =>
      applyConfigKV st (pyStrip k.asString) (pyStripQuotes (pyStrip v.asString))
    | none => st

/-- The config-file pass of `main`: fold the line parser over the file's
lines, starting from the initial credential state. -/
def parseConfig (lines : List String) : Credentials :=
  lines.foldl parseConfigLine initCreds

/-- Environment variables read by `main` (`os.getenv` returns `None` when
a variable is unset). -/
structure EnvVars where
  xtsApiKey : Option String
  xtsSecretKey : Option String
  xtsUrl : Option String
  deriving Repr, DecidableEq

/-- Answers the operator would type at the interactive prompt. -/
structure PromptAnswers where
  apiKey : String
  secretKey : String
  baseUrl : String
  deriving Repr, DecidableEq

/-- The credential state after the config-file pass of `main`: parsed
lines when the file exists, the initial state otherwise. -/
def configCreds : Option (List String) → Credentials
  | some lines => parseConfig lines
  | none => initCreds
/-- Credential resolution of `main`: the config file (when present) is
parsed first; only when its `api_key` is falsy are the three environment
variables read (overwriting `secret_key` and `base_url` wholesale); only
when `api_key` is still falsy does the prompt run (`input().strip()`,
base URL `or None`). The two flags record whether the environment and the
prompt were consulted. -/
def resolveCredentials (cfg : Option (List String)) (env : EnvVars)
    (prompt : PromptAnswers) : Credentials × Bool × Bool :=
  let c0 := configCreds cfg
  if pyTruthy c0.api_key then (c0, false, false)
  else
    let c1 := { c0 with
                api_key := env.xtsApiKey,
                secret_key := env.xtsSecretKey,
                base_url := env.xtsUrl }
    if pyTruthy c1.api_key then (c1, true, false)
    else
      let pbu := pyStrip prompt.baseUrl
      ({ c1 with
         api_key := some (pyStrip prompt.apiKey),
         secret_key := some (pyStrip prompt.secretKey),
         base_url := if pbu = "" then none else some pbu }, true, true)

/-- Observable result of one run of `main`: the requests sent, the exit
code, and the contents written to the CSV and JSON files (`none` when the
file was not written). -/
structure RunResult where
  events : List Event
  exitCode : Nat
  csvOut : Option String
  jsonOut : Option String
  deriving Repr, DecidableEq

/-- The tail of `main` after the fetch: `if not indices: sys.exit(1)` —
both a `None` result and an empty list exit 1 without writing anything —
otherwise `save_as_csv` and `save_raw_json` run and the process exits 0. -/
def mainPersist (events : List Event) (res : Option (List RawIndexRecord))
    (ts : String) : RunResult :=
  match res with
  | none => { events := events, exitCode := 1, csvOut := none, jsonOut := none }
  | some [] => { events := events, exitCode := 1, csvOut := none, jsonOut := none }
  | some indices =>
    { events := events, exitCode := 0,
      csvOut := some (save_as_csv_content indices ts),
      jsonOut := some (save_raw_json_content indices) }

/-- The part of `main` from the login call on: `if not downloader.login():
sys.exit(1)`, then `get_index_list(exchange_segment=1)` on the resulting
state, then `mainPersist`. -/
def mainAfterLogin (dl : XTSIndexDownloader) (loginResp : HttpOutcome LoginBody)
    (fetchResp : HttpOutcome FetchBody) (ts : String) : RunResult :=
  if (dl.login loginResp).2 = false then
    { events := [Event.loginRequest (loginUrl dl)], exitCode := 1,
      csvOut := none, jsonOut := none }
  else
    mainPersist
      ([Event.loginRequest (loginUrl dl)]
        ++ ((dl.login loginResp).1.get_index_list 1 fetchResp).1)
      ((dl.login loginResp).1.get_index_list 1 fetchResp).2 ts

/-- One run of `main`: resolve credentials and exit 1 — issuing no
request — if `api_key` or `secret_key` is falsy; otherwise construct the
downloader and run login → fetch → persist. `loginResp`/`fetchResp` are
the outcomes of the two HTTP calls and `ts` the timestamp `save_as_csv`
computes. -/
def runMain (cfg : Option (List String)) (env : EnvVars)
    (prompt : PromptAnswers) (loginResp : HttpOutcome LoginBody)
    (fetchResp : HttpOutcome FetchBody) (ts : String) : RunResult :=
  let creds := (resolveCredentials cfg env prompt).1
  if ¬ pyTruthy creds.api_key ∨ ¬ pyTruthy creds.secret_key then
    { events := [], exitCode := 1, csvOut := none, jsonOut := none }
  else
    mainAfterLogin
      (XTSIndexDownloader.init (creds.api_key.getD "")
        (creds.secret_key.getD "") creds.base_url creds.source)
      loginResp fetchResp ts

/-- Spec-side CSV writer, phrased from the specification's words: a
header row `id,index_name,token,created_at`, then one comma-delimited
data row per normalized record in input order, the `id` being the
record's 1-based position and every row carrying the same `created_at`
timestamp, with no quoting or escaping. Used only to be compared with
`save_as_csv_content`. -/
def writeCsvSpec (rows : List (String × String)) (ts : String) : String :=
  csvHeader ++ String.join (rows.enum.map (fun p =>
    toString (p.1 + 1) ++ "," ++ p.2.1 ++ "," ++ p.2.2 ++ "," ++ ts ++ "\n"))

/-- The timestamp-independent part of one CSV data row: everything up to
and including the comma before `created_at`. -/
def csvRowPre (idx : Nat) (item : RawIndexRecord) : String :=
  toString idx ++ "," ++ (normalizeName item).1 ++ ","
    ++ (normalizeName item).2 ++ ","

/-- The timestamp-independent skeleton of the CSV body: one row head per
record, in input order. -/
def csvSkeleton (indices : List RawIndexRecord) : List String :=
  indices.enum.map (fun p => csvRowPre (p.1 + 1) p.2)

/-! ### Lemmas about the last-underscore split -/

theorem splitLastUnderscore_eq_none_iff (l : List Char) :
    splitLastUnderscore l = none ↔ '_' ∉ l := by
  induction l with
  | nil => simp [splitLastUnderscore]
  | cons c rest ih =>
    cases h : splitLastUnderscore rest with
    | some p =>
      have : '_' ∈ rest := by
        by_contra hm
        rw [← ih] at hm
        simp [h] at hm
      simp only [splitLastUnderscore, h]
      simp [this]
    | none =>
      have hrest : '_' ∉ rest := ih.mp h
      simp only [splitLastUnderscore, h]
      by_cases hc : c = '_'
      · simp [hc]
      · simp [hc, hrest, Ne.symm hc]

theorem splitLastUnderscore_spec :
    ∀ (l p q : List Char), splitLastUnderscore l = some (p, q) →
      l = p ++ '_' :: q ∧ '_' ∉ q := by
  intro l
  induction l with
  | nil => intro p q h; simp [splitLastUnderscore] at h
  | cons c rest ih =>
    intro p q h
    cases hr : splitLastUnderscore rest with
    | some pq =>
      obtain ⟨p', q'⟩ := pq
      simp only [splitLastUnderscore, hr] at h
      obtain ⟨hp, hq⟩ := Prod.mk.injEq .. ▸ Option.some.injEq .. ▸ h
      obtain ⟨hrest, hnq⟩ := ih p' q' hr
      subst hp hq
      exact ⟨by simp [hrest], hnq⟩
    | none =>
      simp only [splitLastUnderscore, hr] at h
      by_cases hc : c = '_'
      · simp only [hc, if_pos rfl] at h
        obtain ⟨hp, hq⟩ := Prod.mk.injEq .. ▸ Option.some.injEq .. ▸ h
        subst hp hq
        exact ⟨by simp [hc], (splitLastUnderscore_eq_none_iff rest).mp hr⟩
      · simp [hc] at h

/-! ### C1: per-record name normalization -/

/-- C1: for every raw record, when the `name` field contains at least one
`_` the normalizer splits at the last occurrence — the produced
`index_name` and `token` recompose the name around a final-segment
underscore and the token itself contains no `_` (which pins the split to
the last occurrence); when `name` contains no `_`, `index_name` is the
full name and `token` is the record's `exchangeInstrumentID` (defaulting
to the empty string when absent). -/
theorem normalizeName_split_rule (item : RawIndexRecord) :
    (('_' ∈ (pyGet item "name" "").data) →
      (pyGet item "name" "").data
          = (normalizeName item).1.data ++ '_' :: (normalizeName item).2.data
        ∧ '_' ∉ (normalizeName item).2.data) ∧
    (('_' ∉ (pyGet item "name" "").data) →
      (normalizeName item).1 = pyGet item "name" ""
        ∧ (normalizeName item).2 = pyGet item "exchangeInstrumentID" "") := by
  cases h : splitLastUnderscore (pyGet item "name" "").data with
  | some pq =>
    obtain ⟨p, q⟩ := pq
    obtain ⟨hdec, hq⟩ := splitLastUnderscore_spec _ p q h
    constructor
    · intro _
      simp only [normalizeName, h]
      simpa [List.asString] using ⟨hdec, hq⟩
    · intro hnot
      have hnone := (splitLastUnderscore_eq_none_iff _).mpr hnot
      rw [h] at hnone
      exact absurd hnone (by simp)
  | none =>
    constructor
    · intro hmem
      exact absurd ((splitLastUnderscore_eq_none_iff _).mp h) (by simp [hmem])
    · intro _
      simp [normalizeName, h]

/-- Witness for C1 on the record `{"name": "A_B_C"}`: the underscore
branch recomposes the name with a token free of underscores. -/
theorem normalizeName_split_rule_witness :
    (pyGet [("name", "A_B_C")] "name" "").data
        = (normalizeName [("name", "A_B_C")]).1.data
          ++ '_' :: (normalizeName [("name", "A_B_C")]).2.data
      ∧ '_' ∉ (normalizeName [("name", "A_B_C")]).2.data :=
  (normalizeName_split_rule [("name", "A_B_C")]).1 (by decide)

/-! ### C7: split/rejoin round trip -/

/-- C7: for every string containing at least one `_`, the
last-underscore split succeeds, and rejoining its two parts with `_`
reproduces the original string exactly. -/
theorem split_rejoin_roundtrip :
    (∀ s : String, '_' ∈ s.data → (splitLastUnderscore s.data).isSome = true) ∧
    (∀ s p q : String, splitLastUnderscore s.data = some (p.data, q.data) →
      p ++ "_" ++ q = s) := by
  constructor
  · intro s hs
    cases h : splitLastUnderscore s.data with
    | some _ => rfl
    | none => exact absurd ((splitLastUnderscore_eq_none_iff _).mp h) (by simp [hs])
  · intro s p q h
    have hdec := (splitLastUnderscore_spec _ _ _ h).1
    apply String.toList_inj.mp
    show (p ++ "_" ++ q).data = s.data
    rw [String.data_append, String.data_append, hdec, List.append_assoc]
    rfl

/-- Witness for C7 on `"Nifty 50_26000"`. -/
theorem split_rejoin_roundtrip_witness :
    (splitLastUnderscore ("Nifty 50_26000" : String).data).isSome = true
      ∧ "Nifty 50" ++ "_" ++ "26000" = "Nifty 50_26000" :=
  ⟨split_rejoin_roundtrip.1 "Nifty 50_26000" (by decide),
   split_rejoin_roundtrip.2 "Nifty 50_26000" "Nifty 50" "26000" (by decide)⟩

/-! ### Lemmas about `login` -/

theorem login_true_elim (st : XTSIndexDownloader) (resp : HttpOutcome LoginBody)
    (h : (st.login resp).2 = true) :
    ∃ body tok, resp = .ok (some body) ∧ body.type = some "success"
      ∧ tokenOf body = some tok
      ∧ (st.login resp).1 = { st with token := some tok } := by
  cases resp with
  | httpError code body => simp [XTSIndexDownloader.login] at h
  | urlError reason => simp [XTSIndexDownloader.login] at h
  | timeout => simp [XTSIndexDownloader.login] at h
  | otherError msg => simp [XTSIndexDownloader.login] at h
  | ok ob =>
    cases ob with
    | none => simp [XTSIndexDownloader.login] at h
    | some body =>
      by_cases ht : body.type = some "success"
      · cases htok : tokenOf body with
        | none => simp [XTSIndexDownloader.login, ht, htok] at h
        | some tok =>
          exact ⟨body, tok, rfl, ht, htok,
            by simp [XTSIndexDownloader.login, ht, htok]⟩
      · simp [XTSIndexDownloader.login, ht] at h

theorem login_false_on_bad_type (st : XTSIndexDownloader) (body : LoginBody)
    (ht : body.type ≠ some "success") :
    st.login (.ok (some body)) = (st, false) := by
  simp [XTSIndexDownloader.login, ht]

/-! ### C5: login failure taxonomy -/

/-- C5: login fails (returning the unchanged state and `False`, with no
second attempt modelled — the operation consumes exactly one HTTP
outcome) on a non-2xx HTTP status, any network/transport exception or
timeout, a body that fails JSON parsing, and a parsed body whose `type`
is not `"success"`; whenever it reports success, the response was a
parsed JSON body with `type == "success"` and the stored token is its
`result.token`. -/
theorem login_failure_taxonomy (st : XTSIndexDownloader) :
    (∀ code body, st.login (.httpError code body) = (st, false)) ∧
    (∀ reason, st.login (.urlError reason) = (st, false)) ∧
    (st.login .timeout = (st, false)) ∧
    (∀ msg, st.login (.otherError msg) = (st, false)) ∧
    (st.login (.ok none) = (st, false)) ∧
    (∀ body : LoginBody, body.type ≠ some "success" →
      st.login (.ok (some body)) = (st, false)) ∧
    (∀ resp, (st.login resp).2 = true →
      ∃ body tok, resp = .ok (some body) ∧ body.type = some "success"
        ∧ tokenOf body = some tok
        ∧ (st.login resp).1 = { st with token := some tok }) :=
  ⟨fun _ _ => rfl, fun _ => rfl, rfl, fun _ => rfl, rfl,
   fun body ht => login_false_on_bad_type st body ht,
   fun resp h => login_true_elim st resp h⟩

/-- Witness for C5: a concrete rejected login (`type == "failure"`) and a
concrete timeout both return `False` and leave the state unchanged. -/
theorem login_failure_taxonomy_witness :
    (XTSIndexDownloader.init "k" "s" none "TWSAPI").login
        (.ok (some ⟨some "failure", none⟩))
      = (XTSIndexDownloader.init "k" "s" none "TWSAPI", false)
    ∧ (XTSIndexDownloader.init "k" "s" none "TWSAPI").login .timeout
      = (XTSIndexDownloader.init "k" "s" none "TWSAPI", false) :=
  ⟨(login_failure_taxonomy (XTSIndexDownloader.init "k" "s" none "TWSAPI")).2.2.2.2.2.1
      ⟨some "failure", none⟩ (by decide),
   (login_failure_taxonomy (XTSIndexDownloader.init "k" "s" none "TWSAPI")).2.2.1⟩

/-! ### C10: success body with missing `result.token` -/

/-- C10: a parsed login body with `type == "success"` but no
`result.token` (the `result` object absent, or present without a `token`
field) does not crash: the raised lookup error is caught, login returns
`False`, the state — hence the stored token — is unchanged, and with the
token still unset `get_index_list` refuses to issue any fetch. -/
theorem login_missing_token_is_failure (st : XTSIndexDownloader)
    (body : LoginBody) (ht : body.type = some "success")
    (htok : tokenOf body = none) :
    st.login (.ok (some body)) = (st, false)
      ∧ (st.token = none → ∀ (seg : Nat) (resp : HttpOutcome FetchBody),
          ((st.login (.ok (some body))).1.get_index_list seg resp) = ([], none)) := by
  have hlogin : st.login (.ok (some body)) = (st, false) := by
    simp [XTSIndexDownloader.login, ht, htok]
  refine ⟨hlogin, fun hnone seg resp => ?_⟩
  rw [hlogin]
  simp [XTSIndexDownloader.get_index_list, hnone]

/-- Witness for C10: the concrete body `{"type": "success"}` with no
`result` object fails the login of a freshly constructed downloader and
blocks a subsequent fetch. -/
theorem login_missing_token_is_failure_witness :
    (XTSIndexDownloader.init "k" "s" none "TWSAPI").login
        (.ok (some ⟨some "success", none⟩))
      = (XTSIndexDownloader.init "k" "s" none "TWSAPI", false)
    ∧ ((XTSIndexDownloader.init "k" "s" none "TWSAPI").login
        (.ok (some ⟨some "success", none⟩))).1.get_index_list 1 .timeout
      = ([], none) :=
  ⟨(login_missing_token_is_failure (XTSIndexDownloader.init "k" "s" none "TWSAPI")
      ⟨some "success", none⟩ rfl rfl).1,
   (login_missing_token_is_failure (XTSIndexDownloader.init "k" "s" none "TWSAPI")
      ⟨some "success", none⟩ rfl rfl).2 rfl 1 .timeout⟩

/-! ### Lemmas about the CSV body -/

theorem string_join_cons (a : String) (l : List String) :
    String.join (a :: l) = a ++ String.join l := by
  apply String.toList_inj.mp
  show (String.join (a :: l)).data = (a ++ String.join l).data
  rw [String.join_eq, String.join_eq, String.data_append]
  simp

theorem specRows_eq_csvRows (ts : String) :
    ∀ (l : List RawIndexRecord) (n : Nat),
      String.join (((l.map normalizeName).enumFrom n).map (fun p =>
          toString (p.1 + 1) ++ "," ++ p.2.1 ++ "," ++ p.2.2 ++ "," ++ ts ++ "\n"))
        = csvRows (n + 1) l ts := by
  intro l
  induction l with
  | nil => intro n; rfl
  | cons item rest ih =>
    intro n
    rw [List.map_cons, List.enumFrom_cons, List.map_cons, string_join_cons,
      ih (n + 1)]
    rfl

theorem skeletonRows_eq_csvRows (ts : String) :
    ∀ (l : List RawIndexRecord) (n : Nat),
      String.join (((l.enumFrom n).map (fun p => csvRowPre (p.1 + 1) p.2)).map
          (fun pre => pre ++ ts ++ "\n"))
        = csvRows (n + 1) l ts := by
  intro l
  induction l with
  | nil => intro n; rfl
  | cons item rest ih =>
    intro n
    rw [List.enumFrom_cons, List.map_cons, List.map_cons, string_join_cons,
      ih (n + 1)]
    rfl

theorem save_as_csv_factor (indices : List RawIndexRecord) (ts : String) :
    save_as_csv_content indices ts
      = csvHeader ++ String.join ((csvSkeleton indices).map
          (fun pre => pre ++ ts ++ "\n")) := by
  unfold save_as_csv_content csvSkeleton
  rw [show indices.enum = indices.enumFrom 0 from rfl,
    skeletonRows_eq_csvRows ts indices 0]

theorem mainPersist_jsonOut_ts (events : List Event)
    (res : Option (List RawIndexRecord)) (ts1 ts2 : String) :
    (mainPersist events res ts1).jsonOut = (mainPersist events res ts2).jsonOut := by
  rcases res with _ | (_ | ⟨a, l⟩) <;> rfl

theorem runMain_jsonOut_ts (cfg : Option (List String)) (env : EnvVars)
    (prompt : PromptAnswers) (loginResp : HttpOutcome LoginBody)
    (fetchResp : HttpOutcome FetchBody) (ts1 ts2 : String) :
    (runMain cfg env prompt loginResp fetchResp ts1).jsonOut
      = (runMain cfg env prompt loginResp fetchResp ts2).jsonOut := by
  unfold runMain
  by_cases h1 : ¬ pyTruthy ((resolveCredentials cfg env prompt).1.api_key)
      ∨ ¬ pyTruthy ((resolveCredentials cfg env prompt).1.secret_key)
  · rw [if_pos h1, if_pos h1]
  · rw [if_neg h1, if_neg h1]
    unfold mainAfterLogin
    by_cases h2 : ((XTSIndexDownloader.init
        ((resolveCredentials cfg env prompt).1.api_key.getD "")
        ((resolveCredentials cfg env prompt).1.secret_key.getD "")
        (resolveCredentials cfg env prompt).1.base_url
        (resolveCredentials cfg env prompt).1.source).login loginResp).2 = false
    · rw [if_pos h2, if_pos h2]
    · rw [if_neg h2, if_neg h2]
      exact mainPersist_jsonOut_ts _ _ ts1 ts2

/-! ### C6: CSV write refines the specified format -/

/-- C6: the content produced by `save_as_csv` is exactly the header row
`id,index_name,token,created_at` followed by one comma-joined, unquoted
row per record in input order, where the id is the record's 1-based
position and every row carries the single per-run timestamp
(`writeCsvSpec` spells that format out in the specification's words). -/
theorem save_as_csv_refines_writeCsvSpec (indices : List RawIndexRecord)
    (ts : String) :
    save_as_csv_content indices ts = writeCsvSpec (indices.map normalizeName) ts := by
  unfold save_as_csv_content writeCsvSpec
  rw [show (indices.map normalizeName).enum
      = (indices.map normalizeName).enumFrom 0 from rfl,
    specRows_eq_csvRows ts indices 0]

/-! ### C8: persistence deterministic up to the timestamp column -/

/-- C8: rerunning the persistence stage on an identical record list gives
byte-for-byte identical output — the write truncates, so the content is
the file — except that the CSV's `created_at` slots carry the run's
timestamp: the CSV factors as the header plus a timestamp-independent
skeleton with `ts` spliced into each row, and the JSON artifact produced
by a run of `main` does not depend on the timestamp at all. -/
theorem persistence_deterministic_mod_timestamp :
    (∀ (indices : List RawIndexRecord) (ts : String),
      save_as_csv_content indices ts
        = csvHeader ++ String.join ((csvSkeleton indices).map
            (fun pre => pre ++ ts ++ "\n"))) ∧
    (∀ cfg env prompt loginResp fetchResp (ts1 ts2 : String),
      (runMain cfg env prompt loginResp fetchResp ts1).jsonOut
        = (runMain cfg env prompt loginResp fetchResp ts2).jsonOut) :=
  ⟨save_as_csv_factor, runMain_jsonOut_ts⟩

/-! ### Lemmas about `get_index_list` and the run -/

theorem get_index_list_events (st : XTSIndexDownloader) (seg : Nat)
    (resp : HttpOutcome FetchBody) (tok : String) (h : st.token = some tok)
    (hne : tok ≠ "") :
    (st.get_index_list seg resp).1 = [Event.fetchRequest (fetchUrl st seg) tok] := by
  simp [XTSIndexDownloader.get_index_list, h, hne]

theorem get_index_list_empty_token (st : XTSIndexDownloader) (seg : Nat)
    (resp : HttpOutcome FetchBody) (h : st.token = some "") :
    st.get_index_list seg resp = ([], none) := by
  simp [XTSIndexDownloader.get_index_list, h]

theorem get_index_list_success (st : XTSIndexDownloader) (tok : String)
    (seg : Nat) (body : FetchBody) (htok : st.token = some tok)
    (hne : tok ≠ "") (ht : body.type = some "success") :
    (st.get_index_list seg (.ok (some body))).2 = some (body.result.getD []) := by
  simp [XTSIndexDownloader.get_index_list, htok, hne, ht]

theorem mainAfterLogin_empty_result (dl : XTSIndexDownloader)
    (loginResp : HttpOutcome LoginBody) (body : FetchBody) (ts : String)
    (ht : body.type = some "success") (hres : body.result.getD [] = []) :
    (mainAfterLogin dl loginResp (.ok (some body)) ts).exitCode = 1
      ∧ (mainAfterLogin dl loginResp (.ok (some body)) ts).csvOut = none
      ∧ (mainAfterLogin dl loginResp (.ok (some body)) ts).jsonOut = none := by
  unfold mainAfterLogin
  by_cases h2 : (dl.login loginResp).2 = false
  · rw [if_pos h2]
    exact ⟨rfl, rfl, rfl⟩
  · rw [if_neg h2]
    obtain ⟨b, tok, -, -, -, hstate⟩ :=
      login_true_elim dl loginResp (by simpa using h2)
    have htok : (dl.login loginResp).1.token = some tok := by rw [hstate]
    by_cases hne : tok = ""
    · rw [get_index_list_empty_token _ 1 _ (hne ▸ htok)]
      exact ⟨rfl, rfl, rfl⟩
    · have hfr : ((dl.login loginResp).1.get_index_list 1 (.ok (some body))).2
          = some [] := by
        rw [get_index_list_success _ tok 1 body htok hne ht, hres]
      rw [hfr]
      exact ⟨rfl, rfl, rfl⟩

/-! ### C2: an empty fetched result list -/

/-- C2 fails on the code: in a run whose fetch succeeds with an empty
result list, `main`'s `if not indices: sys.exit(1)` conflates the empty
list with a failed fetch — the process exits 1 and neither the CSV nor
the JSON file is written, instead of completing with a header-only CSV
and a `[]` JSON. -/
theorem empty_result_counterexample :
    (runMain (some ["marketdata_appkey=K", "marketdata_secretkey=S"])
        ⟨none, none, none⟩ ⟨"", "", ""⟩
        (.ok (some ⟨some "success", some [("token", "TOK")]⟩))
        (.ok (some ⟨some "success", some []⟩)) "2024-01-01 00:00:00.000").exitCode
        = 1
      ∧ (runMain (some ["marketdata_appkey=K", "marketdata_secretkey=S"])
          ⟨none, none, none⟩ ⟨"", "", ""⟩
          (.ok (some ⟨some "success", some [("token", "TOK")]⟩))
          (.ok (some ⟨some "success", some []⟩)) "2024-01-01 00:00:00.000").csvOut
        = none
      ∧ (runMain (some ["marketdata_appkey=K", "marketdata_secretkey=S"])
          ⟨none, none, none⟩ ⟨"", "", ""⟩
          (.ok (some ⟨some "success", some [("token", "TOK")]⟩))
          (.ok (some ⟨some "success", some []⟩)) "2024-01-01 00:00:00.000").jsonOut
        = none := by
  refine ⟨?_, ?_, ?_⟩ <;> rfl

/-- C2 as amended: the fetch stage itself does not treat an empty (or
absent) `result` as an error — it returns the empty list — and the
persistence functions on an empty list would produce exactly the header
line and `[]`; but `main` exits 1 without writing either file when the
fetched list is empty. -/
theorem empty_result_amended :
    (∀ (st : XTSIndexDownloader) (tok : String) (seg : Nat) (body : FetchBody),
      st.token = some tok → tok ≠ "" → body.type = some "success" →
      (st.get_index_list seg (.ok (some body))).2 = some (body.result.getD [])) ∧
    (∀ cfg env prompt (loginResp : HttpOutcome LoginBody) (ts : String)
        (body : FetchBody),
      body.type = some "success" → body.result.getD [] = [] →
      (runMain cfg env prompt loginResp (.ok (some body)) ts).exitCode = 1
        ∧ (runMain cfg env prompt loginResp (.ok (some body)) ts).csvOut = none
        ∧ (runMain cfg env prompt loginResp (.ok (some body)) ts).jsonOut = none) ∧
    (∀ ts : String, save_as_csv_content [] ts = csvHeader) ∧
    save_raw_json_content [] = "[]" := by
  refine ⟨fun st tok seg body htok hne ht =>
      get_index_list_success st tok seg body htok hne ht,
    fun cfg env prompt loginResp ts body ht hres => ?_, fun ts => rfl, rfl⟩
  unfold runMain
  by_cases h1 : ¬ pyTruthy ((resolveCredentials cfg env prompt).1.api_key)
      ∨ ¬ pyTruthy ((resolveCredentials cfg env prompt).1.secret_key)
  · rw [if_pos h1]
    exact ⟨rfl, rfl, rfl⟩
  · rw [if_neg h1]
    exact mainAfterLogin_empty_result _ loginResp body ts ht hres

/-- Witness for the amended C2 at a fully concrete run. -/
theorem empty_result_amended_witness :
    (((XTSIndexDownloader.init "k" "s" none "TWSAPI").login
        (.ok (some ⟨some "success", some [("token", "TOK")]⟩))).1.get_index_list 1
        (.ok (some ⟨some "success", none⟩))).2 = some []
      ∧ (runMain (some ["marketdata_appkey=K", "marketdata_secretkey=S"])
          ⟨none, none, none⟩ ⟨"", "", ""⟩
          (.ok (some ⟨some "success", some [("token", "TOK")]⟩))
          (.ok (some ⟨some "success", none⟩)) "ts").exitCode = 1 :=
  ⟨empty_result_amended.1
      ((XTSIndexDownloader.init "k" "s" none "TWSAPI").login
        (.ok (some ⟨some "success", some [("token", "TOK")]⟩))).1
      "TOK" 1 ⟨some "success", none⟩ rfl (by decide) rfl,
   (empty_result_amended.2.1 (some ["marketdata_appkey=K", "marketdata_secretkey=S"])
      ⟨none, none, none⟩ ⟨"", "", ""⟩
      (.ok (some ⟨some "success", some [("token", "TOK")]⟩)) "ts"
      ⟨some "success", none⟩ rfl rfl).1⟩

/-! ### C3: the fetch is gated on a successful login -/

theorem mainAfterLogin_bad_type (dl : XTSIndexDownloader) (body : LoginBody)
    (fetchResp : HttpOutcome FetchBody) (ts : String)
    (ht : body.type ≠ some "success") :
    (mainAfterLogin dl (.ok (some body)) fetchResp ts).exitCode = 1
      ∧ ∀ u t, Event.fetchRequest u t
          ∉ (mainAfterLogin dl (.ok (some body)) fetchResp ts).events := by
  unfold mainAfterLogin
  have hfail : (dl.login (.ok (some body))).2 = false := by
    rw [login_false_on_bad_type dl body ht]
  rw [if_pos hfail]
  exact ⟨rfl, by intro u t; simp⟩

theorem mainAfterLogin_fetch_event (dl : XTSIndexDownloader)
    (loginResp : HttpOutcome LoginBody) (fetchResp : HttpOutcome FetchBody)
    (ts u t : String)
    (hmem : Event.fetchRequest u t ∈ (mainAfterLogin dl loginResp fetchResp ts).events) :
    ∃ body, loginResp = .ok (some body) ∧ body.type = some "success"
      ∧ tokenOf body = some t := by
  unfold mainAfterLogin at hmem
  by_cases h2 : (dl.login loginResp).2 = false
  · rw [if_pos h2] at hmem
    simp at hmem
  · rw [if_neg h2] at hmem
    obtain ⟨body, tok, hresp, htype, htok, hstate⟩ :=
      login_true_elim dl loginResp (by simpa using h2)
    have htoken : (dl.login loginResp).1.token = some tok := by rw [hstate]
    by_cases hne : tok = ""
    · rw [get_index_list_empty_token _ 1 fetchResp (hne ▸ htoken)] at hmem
      simp [mainPersist] at hmem
    rw [get_index_list_events _ 1 fetchResp tok htoken hne] at hmem
    have hev : Event.fetchRequest u t ∈
        ([Event.loginRequest (loginUrl dl),
          Event.fetchRequest (fetchUrl (dl.login loginResp).1 1) tok] : List Event) := by
      rcases hres : ((dl.login loginResp).1.get_index_list 1 fetchResp).2
          with _ | (_ | ⟨a, l⟩)
      · rw [hres] at hmem; exact hmem
      · rw [hres] at hmem; exact hmem
      · rw [hres] at hmem; exact hmem
    rcases List.mem_cons.mp hev with h | h
    · exact absurd h (by simp)
    · have heq := List.mem_singleton.mp h
      injection heq with h1' h2'
      exact ⟨body, hresp, htype, by rw [h2']; exact htok⟩

/-- C3: a login response parsed with `type != "success"` halts the run
with exit code 1 before any fetch request is issued; and in every run
whatsoever, a fetch request appearing in the trace implies the login
response was a parsed body with `type == "success"` whose `result.token`
is exactly the bearer token the fetch request carries. -/
theorem fetch_gated_on_login :
    (∀ cfg env prompt (body : LoginBody) (fetchResp : HttpOutcome FetchBody)
        (ts : String),
      body.type ≠ some "success" →
      (runMain cfg env prompt (.ok (some body)) fetchResp ts).exitCode = 1
        ∧ ∀ u t, Event.fetchRequest u t
            ∉ (runMain cfg env prompt (.ok (some body)) fetchResp ts).events) ∧
    (∀ cfg env prompt (loginResp : HttpOutcome LoginBody)
        (fetchResp : HttpOutcome FetchBody) (ts u t : String),
      Event.fetchRequest u t ∈ (runMain cfg env prompt loginResp fetchResp ts).events →
      ∃ body, loginResp = .ok (some body) ∧ body.type = some "success"
        ∧ tokenOf body = some t) := by
  constructor
  · intro cfg env prompt body fetchResp ts ht
    unfold runMain
    by_cases h1 : ¬ pyTruthy ((resolveCredentials cfg env prompt).1.api_key)
        ∨ ¬ pyTruthy ((resolveCredentials cfg env prompt).1.secret_key)
    · rw [if_pos h1]
      exact ⟨rfl, by intro u t; simp⟩
    · rw [if_neg h1]
      exact mainAfterLogin_bad_type _ body fetchResp ts ht
  · intro cfg env prompt loginResp fetchResp ts u t hmem
    unfold runMain at hmem
    by_cases h1 : ¬ pyTruthy ((resolveCredentials cfg env prompt).1.api_key)
        ∨ ¬ pyTruthy ((resolveCredentials cfg env prompt).1.secret_key)
    · rw [if_pos h1] at hmem
      simp at hmem
    · rw [if_neg h1] at hmem
      exact mainAfterLogin_fetch_event _ loginResp fetchResp ts u t hmem

/-- Witness for C3: a concrete run whose login response has
`type == "failure"` exits 1 and its trace contains no fetch request. -/
theorem fetch_gated_on_login_witness :
    (runMain (some ["marketdata_appkey=K", "marketdata_secretkey=S"])
        ⟨none, none, none⟩ ⟨"", "", ""⟩ (.ok (some ⟨some "failure", none⟩))
        .timeout "ts").exitCode = 1
      ∧ Event.fetchRequest "u" "t"
        ∉ (runMain (some ["marketdata_appkey=K", "marketdata_secretkey=S"])
            ⟨none, none, none⟩ ⟨"", "", ""⟩ (.ok (some ⟨some "failure", none⟩))
            .timeout "ts").events :=
  ⟨(fetch_gated_on_login.1 (some ["marketdata_appkey=K", "marketdata_secretkey=S"])
      ⟨none, none, none⟩ ⟨"", "", ""⟩ ⟨some "failure", none⟩ .timeout "ts"
      (by decide)).1,
   (fetch_gated_on_login.1 (some ["marketdata_appkey=K", "marketdata_secretkey=S"])
      ⟨none, none, none⟩ ⟨"", "", ""⟩ ⟨some "failure", none⟩ .timeout "ts"
      (by decide)).2 "u" "t"⟩

/-! ### C4: credential precedence chain -/

/-- C4: the config file is consulted first — when it yields a truthy
`api_key` the resolution is fully determined by the config alone and
neither the environment nor the prompt is consulted; the environment is
consulted exactly when the config yields no `api_key`, and when it
yields one the prompt is skipped; the prompt runs exactly when neither
earlier source yields an `api_key`; and when `api_key` or `secret_key`
is still falsy after resolution, the run exits 1 without issuing any
request, the login included. -/
theorem credential_precedence :
    (∀ cfg env env' prompt prompt',
      pyTruthy (configCreds cfg).api_key = true →
      resolveCredentials cfg env prompt = (configCreds cfg, false, false)
        ∧ resolveCredentials cfg env prompt = resolveCredentials cfg env' prompt') ∧
    (∀ cfg env prompt prompt',
      pyTruthy (configCreds cfg).api_key = false →
      pyTruthy env.xtsApiKey = true →
      (resolveCredentials cfg env prompt).1.api_key = env.xtsApiKey
        ∧ (resolveCredentials cfg env prompt).2 = (true, false)
        ∧ resolveCredentials cfg env prompt = resolveCredentials cfg env prompt') ∧
    (∀ cfg env prompt,
      pyTruthy (configCreds cfg).api_key = false →
      pyTruthy env.xtsApiKey = false →
      (resolveCredentials cfg env prompt).1.api_key = some (pyStrip prompt.apiKey)
        ∧ (resolveCredentials cfg env prompt).2 = (true, true)) ∧
    (∀ cfg env prompt,
      (resolveCredentials cfg env prompt).2.2 = true →
      pyTruthy (configCreds cfg).api_key = false
        ∧ pyTruthy env.xtsApiKey = false) ∧
    (∀ cfg env prompt loginResp fetchResp (ts : String),
      (pyTruthy (resolveCredentials cfg env prompt).1.api_key = false
        ∨ pyTruthy (resolveCredentials cfg env prompt).1.secret_key = false) →
      runMain cfg env prompt loginResp fetchResp ts
        = { events := [], exitCode := 1, csvOut := none, jsonOut := none }) := by
  refine ⟨?_, ?_, ?_, ?_, ?_⟩
  · intro cfg env env' prompt prompt' h
    unfold resolveCredentials
    rw [if_pos h, if_pos h]
    exact ⟨rfl, rfl⟩
  · intro cfg env prompt prompt' hc he
    have key : ∀ p : PromptAnswers, resolveCredentials cfg env p
        = ({ configCreds cfg with
             api_key := env.xtsApiKey, secret_key := env.xtsSecretKey,
             base_url := env.xtsUrl }, true, false) := by
      intro p
      simp only [resolveCredentials]
      rw [if_neg (by simp [hc]), if_pos (by simpa using he)]
    rw [key prompt, key prompt']
    exact ⟨rfl, rfl, rfl⟩
  · intro cfg env prompt hc he
    simp only [resolveCredentials]
    rw [if_neg (by simp [hc]), if_neg (by simp [he])]
    exact ⟨rfl, rfl⟩
  · intro cfg env prompt h
    by_cases hc : pyTruthy (configCreds cfg).api_key = true
    · exfalso
      unfold resolveCredentials at h
      rw [if_pos hc] at h
      simp at h
    · have hc' : pyTruthy (configCreds cfg).api_key = false := by
        revert hc
        cases pyTruthy (configCreds cfg).api_key <;> simp
      refine ⟨hc', ?_⟩
      by_cases he : pyTruthy env.xtsApiKey = true
      · exfalso
        simp only [resolveCredentials] at h
        rw [if_neg (by simp [hc']), if_pos (by simpa using he)] at h
        simp at h
      · revert he
        cases pyTruthy env.xtsApiKey <;> simp
  · intro cfg env prompt loginResp fetchResp ts h
    have hcond : ¬ pyTruthy (resolveCredentials cfg env prompt).1.api_key
        ∨ ¬ pyTruthy (resolveCredentials cfg env prompt).1.secret_key := by
      rcases h with h | h
      · exact Or.inl (by simp [h])
      · exact Or.inr (by simp [h])
    unfold runMain
    rw [if_pos hcond]

/-- Witness for C4 on concrete sources: a config file carrying both keys
wins outright, and a run with no credential source at all exits 1
without any request. -/
theorem credential_precedence_witness :
    resolveCredentials (some ["marketdata_appkey=K", "marketdata_secretkey=S"])
        ⟨some "E", some "F", none⟩ ⟨"P", "Q", ""⟩
      = (configCreds (some ["marketdata_appkey=K", "marketdata_secretkey=S"]),
          false, false)
      ∧ runMain none ⟨none, none, none⟩ ⟨"", "", ""⟩ .timeout .timeout "ts"
        = { events := [], exitCode := 1, csvOut := none, jsonOut := none } :=
  ⟨(credential_precedence.1 (some ["marketdata_appkey=K", "marketdata_secretkey=S"])
      ⟨some "E", some "F", none⟩ ⟨some "E", some "F", none⟩ ⟨"P", "Q", ""⟩
      ⟨"P", "Q", ""⟩ (by decide)).1,
   credential_precedence.2.2.2.2 none ⟨none, none, none⟩ ⟨"", "", ""⟩
      .timeout .timeout "ts" (Or.inl (by decide))⟩

/-! ### C9: base-URL normalization invariant -/

theorem dropWhile_head?_ne (p : α → Bool) :
    ∀ (l : List α) (a : α), (l.dropWhile p).head? = some a → p a = false := by
  intro l
  induction l with
  | nil => intro a h; simp [List.dropWhile] at h
  | cons b rest ih =>
    intro a h
    by_cases hb : p b = true
    · rw [List.dropWhile_cons, if_pos hb] at h
      exact ih a h
    · rw [List.dropWhile_cons, if_neg hb] at h
      simp at h
      rw [← h]
      exact Bool.eq_false_iff.mpr hb

theorem rstripSlashes_no_trailing_slash (s : String) :
    (rstripSlashes s).data.getLast? ≠ some '/' := by
  unfold rstripSlashes
  intro h
  rw [show ((s.data.reverse.dropWhile (· = '/')).reverse).asString.data
      = (s.data.reverse.dropWhile (· = '/')).reverse from rfl,
    List.getLast?_reverse] at h
  have := dropWhile_head?_ne (· = '/') s.data.reverse '/' h
  simp at this

theorem normalizeBaseUrl_endsWith_marketdata (burl : Option String) :
    "/marketdata".data <:+ (normalizeBaseUrl burl).data := by
  unfold normalizeBaseUrl
  by_cases h : ("/marketdata".data).isSuffixOf
      (rstripSlashes (stripApiSuffix (mdOrDefault burl))).data = true
  · rw [if_pos h]
    exact List.isSuffixOf_iff_suffix.mp h
  · rw [if_neg h, String.data_append]
    exact List.suffix_append _ _

theorem normalizeBaseUrl_append_no_double_slash (burl : Option String)
    (h : ("/marketdata".data).isSuffixOf
        (rstripSlashes (stripApiSuffix (mdOrDefault burl))).data = false) :
    ((normalizeBaseUrl burl).data.take
        ((normalizeBaseUrl burl).data.length - "/marketdata".data.length)).getLast?
      ≠ some '/' := by
  unfold normalizeBaseUrl
  rw [if_neg (by simp [h]), String.data_append, List.length_append,
    Nat.add_sub_cancel, List.take_left]
  exact rstripSlashes_no_trailing_slash _

/-- C9 fails on the code as stated: an input base URL already ending in
`//marketdata` is kept verbatim — it ends with the `/marketdata` suffix,
so nothing is appended, and the slash immediately before the suffix
survives normalization. -/
theorem base_url_double_slash_counterexample :
    normalizeBaseUrl (some "http://x//marketdata") = "http://x//marketdata"
      ∧ (("http://x//marketdata" : String).data.take
          (("http://x//marketdata" : String).data.length
            - "/marketdata".data.length)).getLast? = some '/' := by
  constructor
  · rfl
  · decide

/-- C9 as amended: for every constructor input (a missing or empty URL
selecting the default host) the stored base URL ends with
`"/marketdata"`; a trailing `/apimarketdata` is removed, trailing
slashes are stripped, and `/marketdata` is appended unless already
present — so whenever the appending branch runs, no slash precedes the
appended suffix (an input that already ends in `//marketdata` keeps its
double slash); every request URL is built from the stored value. -/
theorem base_url_invariant :
    (∀ burl, "/marketdata".data <:+ (normalizeBaseUrl burl).data) ∧
    (normalizeBaseUrl none = defaultHost ++ "/marketdata") ∧
    (∀ api secret burl src,
      (XTSIndexDownloader.init api secret burl src).base_url
        = normalizeBaseUrl burl) ∧
    (∀ st : XTSIndexDownloader, loginUrl st = st.base_url ++ "/auth/login") ∧
    (∀ (st : XTSIndexDownloader) (seg : Nat),
      fetchUrl st seg
        = st.base_url ++ "/instruments/indexlist?exchangeSegment="
            ++ toString seg) ∧
    (∀ burl, ("/marketdata".data).isSuffixOf
        (rstripSlashes (stripApiSuffix (mdOrDefault burl))).data = false →
      ((normalizeBaseUrl burl).data.take
          ((normalizeBaseUrl burl).data.length
            - "/marketdata".data.length)).getLast? ≠ some '/') :=
  ⟨normalizeBaseUrl_endsWith_marketdata, rfl,
   fun _ _ _ _ => rfl, fun _ => rfl, fun _ _ => rfl,
   normalizeBaseUrl_append_no_double_slash⟩

/-- Witness for the amended C9: the default URL ends with `/marketdata`,
and for the input `"http://x"` the appended suffix is not preceded by a
slash. -/
theorem base_url_invariant_witness :
    "/marketdata".data <:+ (normalizeBaseUrl none).data
      ∧ ((normalizeBaseUrl (some "http://x")).data.take
          ((normalizeBaseUrl (some "http://x")).data.length
            - "/marketdata".data.length)).getLast? ≠ some '/' :=
  ⟨base_url_invariant.1 none,
   base_url_invariant.2.2.2.2.2 (some "http://x") (by decide)⟩

end Autotrade
